import Mathlib

/-!
Shallow embedding of `src/interval.rs` from the `sqldatetime` repository:
the two fixed-point duration types `IntervalYM` (signed 32-bit month count)
and `IntervalDT` (signed 64-bit microsecond count), their checked
constructors, arithmetic and decomposition, and the generic `DateTime`
field accessors. Machine integers are modelled as `Nat`/`Int` with explicit
wrapping where the source casts or can overflow.
-/

namespace SqlDT

/-- Modelled from the spec: `MONTHS_PER_YEAR` from the crate's `common`
module (the module is not part of the sources in scope); 12 months per
year, a `u32` in the source. -/
def MONTHS_PER_YEAR : Nat := 12

/-- Modelled from the spec: `HOURS_PER_DAY` from the crate's `common`
module; 24 hours per day. -/
def HOURS_PER_DAY : Nat := 24

/-- Modelled from the spec: `MINUTES_PER_HOUR` from the crate's `common`
module; 60 minutes per hour. -/
def MINUTES_PER_HOUR : Nat := 60

/-- Modelled from the spec: `SECONDS_PER_MINUTE` from the crate's `common`
module; 60 seconds per minute. -/
def SECONDS_PER_MINUTE : Nat := 60

/-- Modelled from the spec: `USECONDS_MAX` from the crate's `common`
module; the largest legal fractional-second field, 999999 microseconds. -/
def USECONDS_MAX : Nat := 999999

/-- Modelled from the spec: `USECONDS_PER_SECOND` from the crate's
`common` module; an `i64` in the source. -/
def USECONDS_PER_SECOND : Int := 1000000

/-- Modelled from the spec: `USECONDS_PER_MINUTE` from the crate's
`common` module. -/
def USECONDS_PER_MINUTE : Int := 60000000

/-- Modelled from the spec: `USECONDS_PER_HOUR` from the crate's `common`
module. -/
def USECONDS_PER_HOUR : Int := 3600000000

/-- Modelled from the spec: `USECONDS_PER_DAY` from the crate's `common`
module; `86_400_000_000` microseconds per day. -/
def USECONDS_PER_DAY : Int := 86400000000

/-- `INTERVAL_MAX_YEAR` from `interval.rs` (an `i32` in the source). -/
def INTERVAL_MAX_YEAR : Int := 178000000

/-- `INTERVAL_MAX_DAY` from `interval.rs` (an `i32` in the source). -/
def INTERVAL_MAX_DAY : Int := 100000000

/-- `INTERVAL_MAX_MONTH = INTERVAL_MAX_YEAR * MONTHS_PER_YEAR` from
`interval.rs`. -/
def INTERVAL_MAX_MONTH : Int := INTERVAL_MAX_YEAR * (MONTHS_PER_YEAR : Int)

/-- `INTERVAL_MAX_USECONDS = INTERVAL_MAX_DAY * USECONDS_PER_DAY` from
`interval.rs`. -/
def INTERVAL_MAX_USECONDS : Int := INTERVAL_MAX_DAY * USECONDS_PER_DAY

/-- Smallest `i32` value, `-2^31`. -/
def I32_MIN : Int := -2147483648

/-- Largest `i32` value, `2^31 - 1`. -/
def I32_MAX : Int := 2147483647

/-- Smallest `i64` value, `-2^63`. -/
def I64_MIN : Int := -9223372036854775808

/-- Largest `i64` value, `2^63 - 1`. -/
def I64_MAX : Int := 9223372036854775807

/-- Number of `u32` values, `2^32`. -/
def U32_SIZE : Nat := 4294967296

/-- Rust's `as u32` cast on a signed integer: the value modulo `2^32`. -/
def as_u32 (x : Int) : Nat := (x % 4294967296).toNat

/-- Rust's `as i32` cast on a wider signed integer: the low 32 bits read
as two's complement (`2^31` and `2^32` written out). -/
def as_i32 (x : Int) : Int := (x + 2147483648) % 4294967296 - 2147483648

/-- Two's-complement wrap-around of 64-bit signed arithmetic: the low 64
bits read as two's complement (`2^63` and `2^64` written out). -/
def wrap_i64 (x : Int) : Int := (x + 9223372036854775808) % 18446744073709551616 - 9223372036854775808

/-- The `Sign` enum from `interval.rs`. -/
inductive Sign where
  | Positive
  | Negative
deriving DecidableEq

/-- The `-1`/`+1` multiplier the repository's own tests associate with a
sign (`modifier` in `test_extract_ym`/`test_extract_dt`). -/
def Sign.factor : Sign → Int
  | .Positive => 1
  | .Negative => -1

/-- The error kinds of `crate::error::Error` used by `interval.rs`. -/
inductive Error where
  | IntervalOutOfRange
  | InvalidMonth
  | TimeOutOfRange
  | InvalidMinute
  | InvalidSecond
  | InvalidFraction
  | NumericOverflow
  | InvalidNumber
  | DivideByZero
deriving DecidableEq

/-- `IntervalYM`: a year-month duration wrapping an `i32` month count. -/
structure IntervalYM where
  months : Int
deriving DecidableEq

/-- `IntervalYM::from_ym_unchecked`: `(year * MONTHS_PER_YEAR + month) as
i32`, computed in `u32` arithmetic (wrapping modulo `2^32`) and then cast
to `i32`. -/
def IntervalYM.from_ym_unchecked (year month : Nat) : IntervalYM :=
  ⟨as_i32 ((((year * MONTHS_PER_YEAR + month) % U32_SIZE : Nat)) : Int)⟩

/-- `IntervalYM::from_months_unchecked`. -/
def IntervalYM.from_months_unchecked (months : Int) : IntervalYM :=
  ⟨months⟩

/-- `IntervalYM::try_from_ym`. -/
def IntervalYM.try_from_ym (year month : Nat) : Except Error IntervalYM :=
  if INTERVAL_MAX_YEAR.toNat ≤ year ∧ (year ≠ INTERVAL_MAX_YEAR.toNat ∨ month ≠ 0) then
    .error .IntervalOutOfRange
  else if MONTHS_PER_YEAR ≤ month then
    .error .InvalidMonth
  else
    .ok (IntervalYM.from_ym_unchecked year month)

/-- `IntervalYM::is_valid_months`. -/
def IntervalYM.is_valid_months (months : Int) : Bool :=
  decide (months ≤ INTERVAL_MAX_MONTH) && decide (-INTERVAL_MAX_MONTH ≤ months)

/-- `IntervalYM::try_from_months`. -/
def IntervalYM.try_from_months (months : Int) : Except Error IntervalYM :=
  if IntervalYM.is_valid_months months then
    .ok (IntervalYM.from_months_unchecked months)
  else
    .error .IntervalOutOfRange

/-- `IntervalYM::is_valid_ym`. -/
def IntervalYM.is_valid_ym (year month : Nat) : Bool :=
  if INTERVAL_MAX_YEAR.toNat ≤ year ∧ (year ≠ INTERVAL_MAX_YEAR.toNat ∨ month ≠ 0) then
    false
  else if MONTHS_PER_YEAR ≤ month then
    false
  else
    true

/-- `IntervalYM::extract`: sign plus unsigned year/month magnitudes. The
`as u32` casts of the source are kept (`as_u32`). -/
def IntervalYM.extract (i : IntervalYM) : Sign × Nat × Nat :=
  if i.months < 0 then
    let m := as_u32 (-i.months)
    let year := m / MONTHS_PER_YEAR
    (.Negative, year, m - year * MONTHS_PER_YEAR)
  else
    let m := as_u32 i.months
    let year := m / MONTHS_PER_YEAR
    (.Positive, year, m - year * MONTHS_PER_YEAR)

/-- `IntervalYM::negate`: `-self.months()`. Under the type invariant the
month count never equals `i32::MIN`, so the `i32` negation is exact. -/
def IntervalYM.negate (i : IntervalYM) : IntervalYM :=
  IntervalYM.from_months_unchecked (-i.months)

/-- `IntervalYM::ZERO`. -/
def IntervalYM.ZERO : IntervalYM := ⟨0⟩

/-- `IntervalYM::MAX`. -/
def IntervalYM.MAX : IntervalYM := IntervalYM.from_ym_unchecked 178000000 0

/-- `IntervalYM::MIN`. -/
def IntervalYM.MIN : IntervalYM := (IntervalYM.from_ym_unchecked 178000000 0).negate

/-- `IntervalYM::add_interval_ym`: `checked_add` on the `i32` month
counts (`none` on machine overflow), then `try_from_months`. -/
def IntervalYM.add_interval_ym (x y : IntervalYM) : Except Error IntervalYM :=
  let s := x.months + y.months
  if I32_MIN ≤ s ∧ s ≤ I32_MAX then
    IntervalYM.try_from_months s
  else
    .error .IntervalOutOfRange

/-- `IntervalYM::sub_interval_ym`. -/
def IntervalYM.sub_interval_ym (x y : IntervalYM) : Except Error IntervalYM :=
  x.add_interval_ym y.negate

/-- `DateTime::year` for `IntervalYM`: truncating signed division of the
month count by 12 (Rust `/` on `i32`). -/
def IntervalYM.year (i : IntervalYM) : Option Int :=
  some (i.months.tdiv (MONTHS_PER_YEAR : Int))

/-- `DateTime::month` for `IntervalYM`: truncating signed remainder of
the month count by 12 (Rust `%` on `i32`). -/
def IntervalYM.month (i : IntervalYM) : Option Int :=
  some (i.months.tmod (MONTHS_PER_YEAR : Int))

/-- `DateTime::day` for `IntervalYM`. -/
def IntervalYM.day (_ : IntervalYM) : Option Int := none

/-- `DateTime::hour` for `IntervalYM`. -/
def IntervalYM.hour (_ : IntervalYM) : Option Int := none

/-- `DateTime::minute` for `IntervalYM`. -/
def IntervalYM.minute (_ : IntervalYM) : Option Int := none

/-- `DateTime::second` for `IntervalYM`. -/
def IntervalYM.second (_ : IntervalYM) : Option Rat := none

/-- `IntervalDT`: a day-time duration wrapping an `i64` microsecond
count. -/
structure IntervalDT where
  usecs : Int
deriving DecidableEq

/-- `IntervalDT::from_dhms_unchecked`: the microsecond total computed in
`i64` arithmetic; the single final wrap is equivalent to the stepwise
wrapping of the source's `i64` products and sums. -/
def IntervalDT.from_dhms_unchecked (day hour minute sec usec : Nat) : IntervalDT :=
  let time := (hour : Int) * USECONDS_PER_HOUR + (minute : Int) * USECONDS_PER_MINUTE
    + (sec : Int) * USECONDS_PER_SECOND + (usec : Int)
  ⟨wrap_i64 ((day : Int) * USECONDS_PER_DAY + time)⟩

/-- `IntervalDT::try_from_dhms`. -/
def IntervalDT.try_from_dhms (day hour minute sec usec : Nat) : Except Error IntervalDT :=
  if INTERVAL_MAX_DAY.toNat ≤ day ∧
      (day ≠ INTERVAL_MAX_DAY.toNat ∨ hour ≠ 0 ∨ minute ≠ 0 ∨ sec ≠ 0 ∨ usec ≠ 0) then
    .error .IntervalOutOfRange
  else if HOURS_PER_DAY ≤ hour then
    .error .TimeOutOfRange
  else if MINUTES_PER_HOUR ≤ minute then
    .error .InvalidMinute
  else if SECONDS_PER_MINUTE ≤ sec then
    .error .InvalidSecond
  else if USECONDS_MAX < usec then
    .error .InvalidFraction
  else
    .ok (IntervalDT.from_dhms_unchecked day hour minute sec usec)

/-- `IntervalDT::from_usecs_unchecked`. -/
def IntervalDT.from_usecs_unchecked (usecs : Int) : IntervalDT :=
  ⟨usecs⟩

/-- `IntervalDT::is_valid_usecs`. -/
def IntervalDT.is_valid_usecs (usecs : Int) : Bool :=
  decide (usecs ≤ INTERVAL_MAX_USECONDS) && decide (-INTERVAL_MAX_USECONDS ≤ usecs)

/-- `IntervalDT::try_from_usecs`. -/
def IntervalDT.try_from_usecs (usecs : Int) : Except Error IntervalDT :=
  if IntervalDT.is_valid_usecs usecs then
    .ok (IntervalDT.from_usecs_unchecked usecs)
  else
    .error .IntervalOutOfRange

/-- `IntervalDT::extract`: sign plus the unsigned day, hour, minute,
second and microsecond magnitudes; the successive truncating `i64`
divisions and the final `as u32` casts of the source are kept. -/
def IntervalDT.extract (i : IntervalDT) : Sign × Nat × Nat × Nat × Nat × Nat :=
  let p : Sign × Int × Int :=
    if i.usecs < 0 then
      let day := (-i.usecs).tdiv USECONDS_PER_DAY
      (.Negative, day, -i.usecs - day * USECONDS_PER_DAY)
    else
      let day := i.usecs.tdiv USECONDS_PER_DAY
      (.Positive, day, i.usecs - day * USECONDS_PER_DAY)
  let hour := p.2.2.tdiv USECONDS_PER_HOUR
  let time1 := p.2.2 - hour * USECONDS_PER_HOUR
  let minute := time1.tdiv USECONDS_PER_MINUTE
  let time2 := time1 - minute * USECONDS_PER_MINUTE
  let sec := time2.tdiv USECONDS_PER_SECOND
  let usec := time2 - sec * USECONDS_PER_SECOND
  (p.1, as_u32 p.2.1, as_u32 hour, as_u32 minute, as_u32 sec, as_u32 usec)

/-- `IntervalDT::negate`: `-self.usecs()`. Under the type invariant the
microsecond count never equals `i64::MIN`, so the `i64` negation is
exact. -/
def IntervalDT.negate (i : IntervalDT) : IntervalDT :=
  IntervalDT.from_usecs_unchecked (-i.usecs)

/-- `IntervalDT::ZERO`. -/
def IntervalDT.ZERO : IntervalDT := ⟨0⟩

/-- `IntervalDT::MAX`. -/
def IntervalDT.MAX : IntervalDT := IntervalDT.from_dhms_unchecked 100000000 0 0 0 0

/-- `IntervalDT::MIN`. -/
def IntervalDT.MIN : IntervalDT := (IntervalDT.from_dhms_unchecked 100000000 0 0 0 0).negate

/-- `IntervalDT::add_interval_dt`: `checked_add` on the `i64` microsecond
counts (`none` on machine overflow), then `try_from_usecs`. -/
def IntervalDT.add_interval_dt (x y : IntervalDT) : Except Error IntervalDT :=
  let s := x.usecs + y.usecs
  if I64_MIN ≤ s ∧ s ≤ I64_MAX then
    IntervalDT.try_from_usecs s
  else
    .error .IntervalOutOfRange

/-- `IntervalDT::sub_interval_dt`. -/
def IntervalDT.sub_interval_dt (x y : IntervalDT) : Except Error IntervalDT :=
  x.add_interval_dt y.negate

/-- `DateTime::day` for `IntervalDT`: `(usecs / USECONDS_PER_DAY) as
i32`, with Rust's truncating `i64` division. -/
def IntervalDT.day (i : IntervalDT) : Option Int :=
  some (as_i32 (i.usecs.tdiv USECONDS_PER_DAY))

/-- `DateTime::hour` for `IntervalDT`: the remainder of the microsecond
count modulo a day (truncating `%`), divided by an hour. -/
def IntervalDT.hour (i : IntervalDT) : Option Int :=
  some (as_i32 ((i.usecs.tmod USECONDS_PER_DAY).tdiv USECONDS_PER_HOUR))

/-- `DateTime::minute` for `IntervalDT`. -/
def IntervalDT.minute (i : IntervalDT) : Option Int :=
  some (as_i32 ((i.usecs.tmod USECONDS_PER_HOUR).tdiv USECONDS_PER_MINUTE))

/-- `DateTime::second` for `IntervalDT`. The source computes
`remain_time as f64 / USECONDS_PER_SECOND as f64`; `|remain_time| <
6*10^7 < 2^53` so the `i64` to `f64` conversion is exact, and the `f64`
division is modelled here as exact rational division. -/
def IntervalDT.second (i : IntervalDT) : Option Rat :=
  some (((i.usecs.tmod USECONDS_PER_MINUTE : Int) : Rat) / ((USECONDS_PER_SECOND : Int) : Rat))

/-- `DateTime::year` for `IntervalDT`. -/
def IntervalDT.year (_ : IntervalDT) : Option Int := none

/-- `DateTime::month` for `IntervalDT`. -/
def IntervalDT.month (_ : IntervalDT) : Option Int := none

/-- Modelled from the spec: the companion `Time` type (`crate::Time`, a
time-of-day value, not among the sources in scope) wraps a microsecond
count since midnight returned by `Time::usecs`. -/
structure Time where
  usecs : Int

/-- Modelled from the spec: a time-of-day value is valid when its
microsecond count lies in `[0, USECONDS_PER_DAY)`. -/
def Time.is_valid_time (t : Time) : Prop :=
  0 ≤ t.usecs ∧ t.usecs < USECONDS_PER_DAY

/-- Modelled from the spec: `Time::try_from_hms(hour, minute, sec, usec)`
on in-range fields builds the time-of-day whose microsecond count is the
obvious total (the identity embedding of `timeOfDay` the spec
describes); only the successful construction is modelled. -/
def Time.from_hms (hour minute sec usec : Nat) : Time :=
  ⟨(hour : Int) * USECONDS_PER_HOUR + (minute : Int) * USECONDS_PER_MINUTE
    + (sec : Int) * USECONDS_PER_SECOND + (usec : Int)⟩

/-- `IntervalDT::sub_time`: `try_from_usecs(self.usecs() - time.usecs())`
where the subtraction is `i64` subtraction (wrapping kept explicit). -/
def IntervalDT.sub_time (i : IntervalDT) (t : Time) : Except Error IntervalDT :=
  IntervalDT.try_from_usecs (wrap_i64 (i.usecs - t.usecs))

/-! ### Helper lemmas -/

theorem as_u32_eq_toNat {x : Int} (h0 : 0 ≤ x) (h : x < 4294967296) : as_u32 x = x.toNat := by
  unfold as_u32
  omega

theorem as_i32_eq {x : Int} (h0 : -2147483648 ≤ x) (h : x < 2147483648) : as_i32 x = x := by
  unfold as_i32
  omega

theorem wrap_i64_eq {x : Int} (h0 : -9223372036854775808 ≤ x)
    (h : x < 9223372036854775808) : wrap_i64 x = x := by
  unfold wrap_i64
  omega

theorem tmod_neg_left (a b : Int) : (-a).tmod b = -(a.tmod b) := by
  rw [Int.tmod_def, Int.tmod_def, Int.neg_tdiv]
  ring

theorem is_valid_months_iff {m : Int} :
    IntervalYM.is_valid_months m = true ↔ -2136000000 ≤ m ∧ m ≤ 2136000000 := by
  unfold IntervalYM.is_valid_months INTERVAL_MAX_MONTH INTERVAL_MAX_YEAR MONTHS_PER_YEAR
  simp only [Bool.and_eq_true, decide_eq_true_eq]
  omega

theorem is_valid_usecs_iff {u : Int} :
    IntervalDT.is_valid_usecs u = true ↔
      -8640000000000000000 ≤ u ∧ u ≤ 8640000000000000000 := by
  unfold IntervalDT.is_valid_usecs INTERVAL_MAX_USECONDS INTERVAL_MAX_DAY USECONDS_PER_DAY
  simp only [Bool.and_eq_true, decide_eq_true_eq]
  omega

theorem try_from_months_eq (m : Int) :
    IntervalYM.try_from_months m =
      if -2136000000 ≤ m ∧ m ≤ 2136000000 then .ok ⟨m⟩ else .error .IntervalOutOfRange := by
  unfold IntervalYM.try_from_months IntervalYM.from_months_unchecked
  by_cases h : IntervalYM.is_valid_months m = true
  · rw [if_pos h, if_pos (is_valid_months_iff.mp h)]
  · rw [if_neg h, if_neg (fun hc => h (is_valid_months_iff.mpr hc))]

theorem try_from_usecs_eq (u : Int) :
    IntervalDT.try_from_usecs u =
      if -8640000000000000000 ≤ u ∧ u ≤ 8640000000000000000 then .ok ⟨u⟩
      else .error .IntervalOutOfRange := by
  unfold IntervalDT.try_from_usecs IntervalDT.from_usecs_unchecked
  by_cases h : IntervalDT.is_valid_usecs u = true
  · rw [if_pos h, if_pos (is_valid_usecs_iff.mp h)]
  · rw [if_neg h, if_neg (fun hc => h (is_valid_usecs_iff.mpr hc))]

theorem try_from_ym_eq (year month : Nat) :
    IntervalYM.try_from_ym year month =
      if 178000000 ≤ year ∧ (year ≠ 178000000 ∨ month ≠ 0) then .error .IntervalOutOfRange
      else if 12 ≤ month then .error .InvalidMonth
      else .ok ⟨((year * 12 + month : Nat) : Int)⟩ := by
  have hmax : INTERVAL_MAX_YEAR.toNat = 178000000 := rfl
  unfold IntervalYM.try_from_ym
  rw [hmax]
  unfold MONTHS_PER_YEAR
  split_ifs with ha hb
  · rfl
  · rfl
  · simp only [IntervalYM.from_ym_unchecked, MONTHS_PER_YEAR, U32_SIZE, as_i32,
      Except.ok.injEq, IntervalYM.mk.injEq]
    omega

theorem try_from_dhms_eq (d h mi s u : Nat) :
    IntervalDT.try_from_dhms d h mi s u =
      if 100000000 ≤ d ∧ (d ≠ 100000000 ∨ h ≠ 0 ∨ mi ≠ 0 ∨ s ≠ 0 ∨ u ≠ 0) then
        .error .IntervalOutOfRange
      else if 24 ≤ h then .error .TimeOutOfRange
      else if 60 ≤ mi then .error .InvalidMinute
      else if 60 ≤ s then .error .InvalidSecond
      else if 999999 < u then .error .InvalidFraction
      else .ok ⟨(d : Int) * 86400000000 + ((h : Int) * 3600000000 + (mi : Int) * 60000000
        + (s : Int) * 1000000 + (u : Int))⟩ := by
  have hmax : INTERVAL_MAX_DAY.toNat = 100000000 := rfl
  unfold IntervalDT.try_from_dhms
  rw [hmax]
  unfold HOURS_PER_DAY MINUTES_PER_HOUR SECONDS_PER_MINUTE USECONDS_MAX
  split_ifs with h1 h2 h3 h4 h5
  · rfl
  · rfl
  · rfl
  · rfl
  · rfl
  · simp only [IntervalDT.from_dhms_unchecked, USECONDS_PER_DAY, USECONDS_PER_HOUR,
      USECONDS_PER_MINUTE, USECONDS_PER_SECOND, wrap_i64, Except.ok.injEq, IntervalDT.mk.injEq]
    omega

theorem extract_ym_eq (i : IntervalYM) (h : IntervalYM.is_valid_months i.months = true) :
    i.extract = (if i.months < 0 then Sign.Negative else .Positive,
                 i.months.natAbs / 12, i.months.natAbs % 12) := by
  obtain ⟨hlo, hhi⟩ := is_valid_months_iff.mp h
  by_cases hneg : i.months < 0
  · simp only [IntervalYM.extract, if_pos hneg, as_u32, MONTHS_PER_YEAR, Prod.mk.injEq]
    refine ⟨trivial, ?_, ?_⟩ <;> omega
  · simp only [IntervalYM.extract, if_neg hneg, as_u32, MONTHS_PER_YEAR, Prod.mk.injEq]
    refine ⟨trivial, ?_, ?_⟩ <;> omega

theorem tdiv_step {x d : Int} (h0 : 0 ≤ x) (hd : 0 < d) :
    x.tdiv d = x / d ∧ x - x.tdiv d * d = x % d := by
  have h := Int.tdiv_eq_ediv h0 (le_of_lt hd)
  refine ⟨h, ?_⟩
  rw [h, Int.emod_def]
  ring

theorem extract_dt_eq (i : IntervalDT) (h : IntervalDT.is_valid_usecs i.usecs = true) :
    i.extract = (if i.usecs < 0 then Sign.Negative else .Positive,
                 i.usecs.natAbs / 86400000000,
                 i.usecs.natAbs % 86400000000 / 3600000000,
                 i.usecs.natAbs % 3600000000 / 60000000,
                 i.usecs.natAbs % 60000000 / 1000000,
                 i.usecs.natAbs % 1000000) := by
  obtain ⟨hlo, hhi⟩ := is_valid_usecs_iff.mp h
  simp only [IntervalDT.extract, USECONDS_PER_DAY, USECONDS_PER_HOUR, USECONDS_PER_MINUTE,
    USECONDS_PER_SECOND]
  by_cases hneg : i.usecs < 0
  · rw [if_pos hneg, if_pos hneg]
    have hx0 : (0 : Int) ≤ -i.usecs := by omega
    obtain ⟨hq1, hr1⟩ := tdiv_step (d := 86400000000) hx0 (by norm_num)
    rw [hr1, hq1]
    have hm1 : (0 : Int) ≤ -i.usecs % 86400000000 := Int.emod_nonneg _ (by norm_num)
    obtain ⟨hq2, hr2⟩ := tdiv_step (d := 3600000000) hm1 (by norm_num)
    rw [hr2, hq2, Int.emod_emod_of_dvd _ (⟨24, by norm_num⟩ : (3600000000 : Int) ∣ 86400000000)]
    have hm2 : (0 : Int) ≤ -i.usecs % 3600000000 := Int.emod_nonneg _ (by norm_num)
    obtain ⟨hq3, hr3⟩ := tdiv_step (d := 60000000) hm2 (by norm_num)
    rw [hr3, hq3, Int.emod_emod_of_dvd _ (⟨60, by norm_num⟩ : (60000000 : Int) ∣ 3600000000)]
    have hm3 : (0 : Int) ≤ -i.usecs % 60000000 := Int.emod_nonneg _ (by norm_num)
    obtain ⟨hq4, hr4⟩ := tdiv_step (d := 1000000) hm3 (by norm_num)
    rw [hr4, hq4, Int.emod_emod_of_dvd _ (⟨60, by norm_num⟩ : (1000000 : Int) ∣ 60000000)]
    simp only [as_u32, Prod.mk.injEq]
    refine ⟨trivial, ?_, ?_, ?_, ?_, ?_⟩ <;> omega
  · rw [if_neg hneg, if_neg hneg]
    have hx0 : (0 : Int) ≤ i.usecs := by omega
    obtain ⟨hq1, hr1⟩ := tdiv_step (d := 86400000000) hx0 (by norm_num)
    rw [hr1, hq1]
    have hm1 : (0 : Int) ≤ i.usecs % 86400000000 := Int.emod_nonneg _ (by norm_num)
    obtain ⟨hq2, hr2⟩ := tdiv_step (d := 3600000000) hm1 (by norm_num)
    rw [hr2, hq2, Int.emod_emod_of_dvd _ (⟨24, by norm_num⟩ : (3600000000 : Int) ∣ 86400000000)]
    have hm2 : (0 : Int) ≤ i.usecs % 3600000000 := Int.emod_nonneg _ (by norm_num)
    obtain ⟨hq3, hr3⟩ := tdiv_step (d := 60000000) hm2 (by norm_num)
    rw [hr3, hq3, Int.emod_emod_of_dvd _ (⟨60, by norm_num⟩ : (60000000 : Int) ∣ 3600000000)]
    have hm3 : (0 : Int) ≤ i.usecs % 60000000 := Int.emod_nonneg _ (by norm_num)
    obtain ⟨hq4, hr4⟩ := tdiv_step (d := 1000000) hm3 (by norm_num)
    rw [hr4, hq4, Int.emod_emod_of_dvd _ (⟨60, by norm_num⟩ : (1000000 : Int) ∣ 60000000)]
    simp only [as_u32, Prod.mk.injEq]
    refine ⟨trivial, ?_, ?_, ?_, ?_, ?_⟩ <;> omega

theorem tdiv_eq_sign_ediv (x d : Int) (h0 : 0 ≤ d) :
    x.tdiv d = if 0 ≤ x then x / d else -(-x / d) := by
  by_cases hx : 0 ≤ x
  · rw [if_pos hx, Int.tdiv_eq_ediv hx h0]
  · rw [if_neg hx]
    have hneg := Int.neg_tdiv (-x) d
    rw [Int.neg_neg] at hneg
    rw [hneg, Int.tdiv_eq_ediv (by omega) h0]

theorem tmod_eq_sign_emod (x d : Int) (h0 : 0 ≤ d) :
    x.tmod d = if 0 ≤ x then x % d else -(-x % d) := by
  by_cases hx : 0 ≤ x
  · rw [if_pos hx, Int.tmod_eq_emod hx h0]
  · rw [if_neg hx]
    have hneg := tmod_neg_left (-x) d
    rw [Int.neg_neg] at hneg
    rw [hneg, Int.tmod_eq_emod (by omega) h0]

theorem add_ym_eq (x y : IntervalYM) :
    x.add_interval_ym y =
      if -2136000000 ≤ x.months + y.months ∧ x.months + y.months ≤ 2136000000 then
        .ok ⟨x.months + y.months⟩
      else .error .IntervalOutOfRange := by
  simp only [IntervalYM.add_interval_ym]
  by_cases hI : I32_MIN ≤ x.months + y.months ∧ x.months + y.months ≤ I32_MAX
  · rw [if_pos hI, try_from_months_eq]
  · rw [if_neg hI, if_neg (by unfold I32_MIN I32_MAX at hI; omega)]

theorem add_dt_eq (x y : IntervalDT) :
    x.add_interval_dt y =
      if -8640000000000000000 ≤ x.usecs + y.usecs ∧ x.usecs + y.usecs ≤ 8640000000000000000 then
        .ok ⟨x.usecs + y.usecs⟩
      else .error .IntervalOutOfRange := by
  simp only [IntervalDT.add_interval_dt]
  by_cases hI : I64_MIN ≤ x.usecs + y.usecs ∧ x.usecs + y.usecs ≤ I64_MAX
  · rw [if_pos hI, try_from_usecs_eq]
  · rw [if_neg hI, if_neg (by unfold I64_MIN I64_MAX at hI; omega)]

/-! ### Claim theorems -/

/-- C1: for every year and month given as unsigned 32-bit integers,
`IntervalYM::try_from_ym` fails with `IntervalOutOfRange` unless
`year < 178000000` or (`year = 178000000` and `month = 0`); otherwise
fails with `InvalidMonth` if `month ≥ 12`; otherwise succeeds and the
raw month count of the result is `year * 12 + month`. -/
theorem c1_try_from_ym_spec (year month : Nat)
    (hy : year < 4294967296) (hm : month < 4294967296) :
    (¬(year < 178000000 ∨ (year = 178000000 ∧ month = 0)) →
      IntervalYM.try_from_ym year month = .error .IntervalOutOfRange) ∧
    ((year < 178000000 ∨ (year = 178000000 ∧ month = 0)) → 12 ≤ month →
      IntervalYM.try_from_ym year month = .error .InvalidMonth) ∧
    ((year < 178000000 ∨ (year = 178000000 ∧ month = 0)) → month < 12 →
      IntervalYM.try_from_ym year month = .ok ⟨((year * 12 + month : Nat) : Int)⟩) := by
  rw [try_from_ym_eq]
  refine ⟨fun h1 => ?_, fun h1 h2 => ?_, fun h1 h2 => ?_⟩
  · rw [if_pos (by omega)]
  · rw [if_neg (by omega), if_pos h2]
  · rw [if_neg (by omega), if_neg (by omega)]

/-- Witness for C1: `try_from_ym 123 2` succeeds with 1478 months. -/
theorem c1_try_from_ym_spec_witness :
    IntervalYM.try_from_ym 123 2 = .ok ⟨1478⟩ :=
  (c1_try_from_ym_spec 123 2 (by norm_num) (by norm_num)).2.2
    (Or.inl (by norm_num)) (by norm_num)

/-- C2: for day, hour, minute, second, microsecond given as unsigned
32-bit integers, `IntervalDT::try_from_dhms` fails with
`IntervalOutOfRange` unless `day < 100000000` or (`day = 100000000` with
all smaller fields zero); otherwise fails with `TimeOutOfRange` if
`hour ≥ 24`, `InvalidMinute` if `minute ≥ 60`, `InvalidSecond` if
`sec ≥ 60`, `InvalidFraction` if `usec > 999999`, checked in that order;
otherwise succeeds with raw microsecond count
`day*86400000000 + hour*3600000000 + minute*60000000 + sec*1000000 +
usec`. -/
theorem c2_try_from_dhms_spec (d h mi s u : Nat) (hd : d < 4294967296)
    (hh : h < 4294967296) (hmi : mi < 4294967296) (hs : s < 4294967296)
    (hu : u < 4294967296) :
    (¬(d < 100000000 ∨ (d = 100000000 ∧ h = 0 ∧ mi = 0 ∧ s = 0 ∧ u = 0)) →
      IntervalDT.try_from_dhms d h mi s u = .error .IntervalOutOfRange) ∧
    ((d < 100000000 ∨ (d = 100000000 ∧ h = 0 ∧ mi = 0 ∧ s = 0 ∧ u = 0)) → 24 ≤ h →
      IntervalDT.try_from_dhms d h mi s u = .error .TimeOutOfRange) ∧
    ((d < 100000000 ∨ (d = 100000000 ∧ h = 0 ∧ mi = 0 ∧ s = 0 ∧ u = 0)) → h < 24 → 60 ≤ mi →
      IntervalDT.try_from_dhms d h mi s u = .error .InvalidMinute) ∧
    ((d < 100000000 ∨ (d = 100000000 ∧ h = 0 ∧ mi = 0 ∧ s = 0 ∧ u = 0)) → h < 24 → mi < 60 →
      60 ≤ s → IntervalDT.try_from_dhms d h mi s u = .error .InvalidSecond) ∧
    ((d < 100000000 ∨ (d = 100000000 ∧ h = 0 ∧ mi = 0 ∧ s = 0 ∧ u = 0)) → h < 24 → mi < 60 →
      s < 60 → 999999 < u →
      IntervalDT.try_from_dhms d h mi s u = .error .InvalidFraction) ∧
    ((d < 100000000 ∨ (d = 100000000 ∧ h = 0 ∧ mi = 0 ∧ s = 0 ∧ u = 0)) → h < 24 → mi < 60 →
      s < 60 → u ≤ 999999 →
      IntervalDT.try_from_dhms d h mi s u =
        .ok ⟨(d : Int) * 86400000000 + (h : Int) * 3600000000 + (mi : Int) * 60000000
          + (s : Int) * 1000000 + (u : Int)⟩) := by
  rw [try_from_dhms_eq]
  refine ⟨fun h1 => ?_, fun h1 h2 => ?_, fun h1 h2 h3 => ?_, fun h1 h2 h3 h4 => ?_,
    fun h1 h2 h3 h4 h5 => ?_, fun h1 h2 h3 h4 h5 => ?_⟩
  · rw [if_pos (by omega)]
  · rw [if_neg (by omega), if_pos h2]
  · rw [if_neg (by omega), if_neg (by omega), if_pos h3]
  · rw [if_neg (by omega), if_neg (by omega), if_neg (by omega), if_pos h4]
  · rw [if_neg (by omega), if_neg (by omega), if_neg (by omega), if_neg (by omega), if_pos h5]
  · rw [if_neg (by omega), if_neg (by omega), if_neg (by omega), if_neg (by omega),
      if_neg (by omega)]
    simp only [Except.ok.injEq, IntervalDT.mk.injEq]
    ring

/-- Witness for C2: `try_from_dhms 1 2 3 4 5` succeeds with 93784000005
microseconds. -/
theorem c2_try_from_dhms_spec_witness :
    IntervalDT.try_from_dhms 1 2 3 4 5 = .ok ⟨93784000005⟩ := by
  have h := (c2_try_from_dhms_spec 1 2 3 4 5 (by norm_num) (by norm_num) (by norm_num)
    (by norm_num) (by norm_num)).2.2.2.2.2 (Or.inl (by norm_num)) (by norm_num)
    (by norm_num) (by norm_num) (by norm_num)
  rw [h]
  norm_num

/-- C3: for every valid `(year, month)` pair, `extract` after
`try_from_ym` returns `(Positive, year, month)`; in general, on any
representable value, `extract` returns `year = |months| / 12` and
`month = |months| - year * 12`, and the sign is `Negative` exactly when
the stored integer is strictly negative (zero extracts as `Positive`). -/
theorem c3_extract_spec :
    (∀ year month : Nat, (year < 178000000 ∨ (year = 178000000 ∧ month = 0)) → month < 12 →
      ∃ r : IntervalYM, IntervalYM.try_from_ym year month = .ok r ∧
        r.extract = (.Positive, year, month)) ∧
    (∀ i : IntervalYM, IntervalYM.is_valid_months i.months = true →
      i.extract = (if i.months < 0 then Sign.Negative else .Positive,
        i.months.natAbs / 12, i.months.natAbs - (i.months.natAbs / 12) * 12) ∧
      (i.extract.1 = .Negative ↔ i.months < 0)) := by
  constructor
  · intro y m h1 h2
    refine ⟨⟨((y * 12 + m : Nat) : Int)⟩, ?_, ?_⟩
    · rw [try_from_ym_eq, if_neg (by omega), if_neg (by omega)]
    · have hv : IntervalYM.is_valid_months ((y * 12 + m : Nat) : Int) = true :=
        is_valid_months_iff.mpr (by constructor <;> omega)
      rw [extract_ym_eq ⟨((y * 12 + m : Nat) : Int)⟩ hv]
      have hc : ¬(((y * 12 + m : Nat) : Int) < 0) := by omega
      simp only [hc, if_false, Prod.mk.injEq]
      refine ⟨trivial, ?_, ?_⟩ <;> omega
  · intro i hv
    constructor
    · rw [extract_ym_eq i hv]
      simp only [Prod.mk.injEq]
      refine ⟨trivial, trivial, by omega⟩
    · rw [extract_ym_eq i hv]
      by_cases hneg : i.months < 0
      · simp [hneg]
      · simp [hneg]

/-- Witness for C3: the value with raw month count `-11` extracts as
`(Negative, 0, 11)`. -/
theorem c3_extract_spec_witness :
    (⟨-11⟩ : IntervalYM).extract = (Sign.Negative, 0, 11) := by
  have h := (c3_extract_spec.2 ⟨-11⟩ (by decide)).1
  rw [h]
  decide

/-- C4: on every representable value of either duration type (up to and
including the exact maximum magnitude), negation stays within the
machine-integer range (never overflows), is an involution, and fixes
zero. -/
theorem c4_negate_spec :
    (∀ i : IntervalYM, IntervalYM.is_valid_months i.months = true →
      I32_MIN ≤ -i.months ∧ -i.months ≤ I32_MAX ∧
      IntervalYM.is_valid_months i.negate.months = true ∧
      i.negate.negate = i) ∧
    IntervalYM.ZERO.negate = IntervalYM.ZERO ∧
    (∀ i : IntervalDT, IntervalDT.is_valid_usecs i.usecs = true →
      I64_MIN ≤ -i.usecs ∧ -i.usecs ≤ I64_MAX ∧
      IntervalDT.is_valid_usecs i.negate.usecs = true ∧
      i.negate.negate = i) ∧
    IntervalDT.ZERO.negate = IntervalDT.ZERO := by
  refine ⟨fun i hv => ?_, rfl, fun i hv => ?_, rfl⟩
  · obtain ⟨hlo, hhi⟩ := is_valid_months_iff.mp hv
    refine ⟨by unfold I32_MIN; omega, by unfold I32_MAX; omega, ?_, ?_⟩
    · have hm : i.negate.months = -i.months := rfl
      rw [hm]
      exact is_valid_months_iff.mpr ⟨by omega, by omega⟩
    · show (⟨-(-i.months)⟩ : IntervalYM) = i
      rw [neg_neg]
  · obtain ⟨hlo, hhi⟩ := is_valid_usecs_iff.mp hv
    refine ⟨by unfold I64_MIN; omega, by unfold I64_MAX; omega, ?_, ?_⟩
    · have hm : i.negate.usecs = -i.usecs := rfl
      rw [hm]
      exact is_valid_usecs_iff.mpr ⟨by omega, by omega⟩
    · show (⟨-(-i.usecs)⟩ : IntervalDT) = i
      rw [neg_neg]

/-- Witness for C4: double negation at the maximum magnitudes. -/
theorem c4_negate_spec_witness :
    (⟨2136000000⟩ : IntervalYM).negate.negate = ⟨2136000000⟩ ∧
    (⟨8640000000000000000⟩ : IntervalDT).negate.negate = ⟨8640000000000000000⟩ :=
  ⟨(c4_negate_spec.1 ⟨2136000000⟩ (by decide)).2.2.2,
   (c4_negate_spec.2.2.1 ⟨8640000000000000000⟩ (by decide)).2.2.2⟩

/-- C5: the checked from-raw-count constructors succeed exactly on the
symmetric bound `|months| ≤ 178000000 * 12` respectively
`|usecs| ≤ 100000000 * 86400000000`, failing with `IntervalOutOfRange`
otherwise; in particular `MAX_MONTHS` succeeds and `MAX_MONTHS + 1`
fails. -/
theorem c5_try_from_raw_spec :
    (∀ m : Int, I32_MIN ≤ m → m ≤ I32_MAX →
      ((-2136000000 ≤ m ∧ m ≤ 2136000000) → IntervalYM.try_from_months m = .ok ⟨m⟩) ∧
      (¬(-2136000000 ≤ m ∧ m ≤ 2136000000) →
        IntervalYM.try_from_months m = .error .IntervalOutOfRange)) ∧
    IntervalYM.try_from_months 2136000000 = .ok ⟨2136000000⟩ ∧
    IntervalYM.try_from_months 2136000001 = .error .IntervalOutOfRange ∧
    (∀ u : Int, I64_MIN ≤ u → u ≤ I64_MAX →
      ((-8640000000000000000 ≤ u ∧ u ≤ 8640000000000000000) →
        IntervalDT.try_from_usecs u = .ok ⟨u⟩) ∧
      (¬(-8640000000000000000 ≤ u ∧ u ≤ 8640000000000000000) →
        IntervalDT.try_from_usecs u = .error .IntervalOutOfRange)) := by
  refine ⟨fun m _ _ => ⟨fun hin => ?_, fun hout => ?_⟩, ?_, ?_,
    fun u _ _ => ⟨fun hin => ?_, fun hout => ?_⟩⟩
  · rw [try_from_months_eq, if_pos hin]
  · rw [try_from_months_eq, if_neg hout]
  · rw [try_from_months_eq, if_pos (by norm_num)]
  · rw [try_from_months_eq, if_neg (by norm_num)]
  · rw [try_from_usecs_eq, if_pos hin]
  · rw [try_from_usecs_eq, if_neg hout]

/-- Witness for C5: zero is accepted by both checked constructors. -/
theorem c5_try_from_raw_spec_witness :
    IntervalYM.try_from_months 0 = .ok ⟨0⟩ ∧
    IntervalDT.try_from_usecs 0 = .ok ⟨0⟩ :=
  ⟨(c5_try_from_raw_spec.1 0 (by decide) (by decide)).1 (by decide),
   (c5_try_from_raw_spec.2.2.2 0 (by decide) (by decide)).1 (by decide)⟩

/-- C6: on representable operands, addition returns the exact integer
sum of the raw counts when it satisfies the symmetric bound and fails
with `IntervalOutOfRange` otherwise (machine overflow included), and
subtraction is addition of the negation, hence computes the exact
difference under the same policy. -/
theorem c6_add_sub_spec :
    (∀ x y : IntervalYM, IntervalYM.is_valid_months x.months = true →
      IntervalYM.is_valid_months y.months = true →
      x.add_interval_ym y =
        (if -2136000000 ≤ x.months + y.months ∧ x.months + y.months ≤ 2136000000 then
          .ok ⟨x.months + y.months⟩ else .error .IntervalOutOfRange)) ∧
    (∀ x y : IntervalYM, x.sub_interval_ym y = x.add_interval_ym y.negate) ∧
    (∀ x y : IntervalYM, IntervalYM.is_valid_months x.months = true →
      IntervalYM.is_valid_months y.months = true →
      x.sub_interval_ym y =
        (if -2136000000 ≤ x.months - y.months ∧ x.months - y.months ≤ 2136000000 then
          .ok ⟨x.months - y.months⟩ else .error .IntervalOutOfRange)) ∧
    (∀ x y : IntervalDT, IntervalDT.is_valid_usecs x.usecs = true →
      IntervalDT.is_valid_usecs y.usecs = true →
      x.add_interval_dt y =
        (if -8640000000000000000 ≤ x.usecs + y.usecs ∧
            x.usecs + y.usecs ≤ 8640000000000000000 then
          .ok ⟨x.usecs + y.usecs⟩ else .error .IntervalOutOfRange)) ∧
    (∀ x y : IntervalDT, x.sub_interval_dt y = x.add_interval_dt y.negate) ∧
    (∀ x y : IntervalDT, IntervalDT.is_valid_usecs x.usecs = true →
      IntervalDT.is_valid_usecs y.usecs = true →
      x.sub_interval_dt y =
        (if -8640000000000000000 ≤ x.usecs - y.usecs ∧
            x.usecs - y.usecs ≤ 8640000000000000000 then
          .ok ⟨x.usecs - y.usecs⟩ else .error .IntervalOutOfRange)) := by
  refine ⟨fun x y _ _ => add_ym_eq x y, fun x y => rfl, fun x y _ _ => ?_,
    fun x y _ _ => add_dt_eq x y, fun x y => rfl, fun x y _ _ => ?_⟩
  · show x.add_interval_ym y.negate = _
    rw [add_ym_eq]
    have hn : y.negate.months = -y.months := rfl
    rw [hn, ← sub_eq_add_neg]
  · show x.add_interval_dt y.negate = _
    rw [add_dt_eq]
    have hn : y.negate.usecs = -y.usecs := rfl
    rw [hn, ← sub_eq_add_neg]

/-- Witness for C6: a concrete in-range addition and an overflowing
one from the repository's tests. -/
theorem c6_add_sub_spec_witness :
    (⟨1481477⟩ : IntervalYM).add_interval_ym ⟨1483⟩ = .ok ⟨1482960⟩ ∧
    (⟨2136000000⟩ : IntervalYM).add_interval_ym ⟨1⟩ = .error .IntervalOutOfRange := by
  constructor
  · rw [c6_add_sub_spec.1 ⟨1481477⟩ ⟨1483⟩ (by decide) (by decide), if_pos (by decide)]
    norm_num
  · rw [c6_add_sub_spec.1 ⟨2136000000⟩ ⟨1⟩ (by decide) (by decide), if_neg (by decide)]

/-- C8: on representable day-time durations and valid times of day,
`sub_time` equals `try_from_usecs` of the exact microsecond difference
(so it yields the difference when in bounds and `IntervalOutOfRange`
otherwise); in particular the zero duration minus the time of day
`1:02:03.000004` is the negation of the duration built from parts
`(0, 1, 2, 3, 4)`. -/
theorem c8_sub_time_spec :
    (∀ (i : IntervalDT) (t : Time), IntervalDT.is_valid_usecs i.usecs = true →
      t.is_valid_time →
      i.sub_time t = IntervalDT.try_from_usecs (i.usecs - t.usecs)) ∧
    IntervalDT.try_from_dhms 0 1 2 3 4 = .ok ⟨3723000004⟩ ∧
    IntervalDT.ZERO.sub_time (Time.from_hms 1 2 3 4) =
      .ok ((⟨3723000004⟩ : IntervalDT).negate) := by
  refine ⟨fun i t hv ht => ?_, ?_, ?_⟩
  · obtain ⟨hlo, hhi⟩ := is_valid_usecs_iff.mp hv
    have ht' : 0 ≤ t.usecs ∧ t.usecs < USECONDS_PER_DAY := ht
    unfold USECONDS_PER_DAY at ht'
    show IntervalDT.try_from_usecs (wrap_i64 (i.usecs - t.usecs)) = _
    rw [wrap_i64_eq (by omega) (by omega)]
  · rfl
  · rfl

/-- Witness for C8: the zero duration minus midnight is the zero
duration. -/
theorem c8_sub_time_spec_witness :
    IntervalDT.ZERO.sub_time ⟨0⟩ = IntervalDT.try_from_usecs 0 :=
  c8_sub_time_spec.1 IntervalDT.ZERO ⟨0⟩ (by decide) ⟨by decide, by decide⟩

/-- C9: the generic accessors partition fields by type: a year-month
duration answers `year`/`month` by truncating signed division/remainder
of the raw month count by 12 and `None` for the day-time fields; a
representable day-time duration answers `day`/`hour`/`minute` by
truncating signed division of (remainders of) the raw microsecond count,
`second` as a float combining whole seconds and fractional microseconds,
and `None` for `year`/`month`. -/
theorem c9_accessor_spec :
    (∀ i : IntervalYM,
      i.year = some (i.months.tdiv 12) ∧
      i.month = some (i.months.tmod 12) ∧
      i.day = none ∧ i.hour = none ∧ i.minute = none ∧ i.second = none) ∧
    (∀ i : IntervalDT, IntervalDT.is_valid_usecs i.usecs = true →
      i.day = some (i.usecs.tdiv 86400000000) ∧
      i.hour = some ((i.usecs.tmod 86400000000).tdiv 3600000000) ∧
      i.minute = some ((i.usecs.tmod 3600000000).tdiv 60000000) ∧
      i.second = some (((i.usecs.tmod 60000000 : Int) : Rat) / 1000000) ∧
      i.year = none ∧ i.month = none) := by
  constructor
  · intro i
    exact ⟨rfl, rfl, rfl, rfl, rfl, rfl⟩
  · intro i hv
    obtain ⟨hlo, hhi⟩ := is_valid_usecs_iff.mp hv
    refine ⟨?_, ?_, ?_, ?_, rfl, rfl⟩
    · have hq : -2147483648 ≤ i.usecs.tdiv 86400000000 ∧
          i.usecs.tdiv 86400000000 < 2147483648 := by
        rw [tdiv_eq_sign_ediv _ _ (by norm_num)]
        by_cases hx : 0 ≤ i.usecs
        · rw [if_pos hx]; constructor <;> omega
        · rw [if_neg hx]; constructor <;> omega
      show some (as_i32 (i.usecs.tdiv USECONDS_PER_DAY)) = _
      unfold USECONDS_PER_DAY
      rw [as_i32_eq hq.1 hq.2]
    · have hr : -86400000000 ≤ i.usecs.tmod 86400000000 ∧
          i.usecs.tmod 86400000000 ≤ 86400000000 := by
        rw [tmod_eq_sign_emod _ _ (by norm_num)]
        by_cases hx : 0 ≤ i.usecs
        · rw [if_pos hx]; constructor <;> omega
        · rw [if_neg hx]; constructor <;> omega
      have hq : -2147483648 ≤ (i.usecs.tmod 86400000000).tdiv 3600000000 ∧
          (i.usecs.tmod 86400000000).tdiv 3600000000 < 2147483648 := by
        rw [tdiv_eq_sign_ediv _ _ (by norm_num)]
        by_cases hx : 0 ≤ i.usecs.tmod 86400000000
        · rw [if_pos hx]; constructor <;> omega
        · rw [if_neg hx]; constructor <;> omega
      show some (as_i32 ((i.usecs.tmod USECONDS_PER_DAY).tdiv USECONDS_PER_HOUR)) = _
      unfold USECONDS_PER_DAY USECONDS_PER_HOUR
      rw [as_i32_eq hq.1 hq.2]
    · have hr : -3600000000 ≤ i.usecs.tmod 3600000000 ∧
          i.usecs.tmod 3600000000 ≤ 3600000000 := by
        rw [tmod_eq_sign_emod _ _ (by norm_num)]
        by_cases hx : 0 ≤ i.usecs
        · rw [if_pos hx]; constructor <;> omega
        · rw [if_neg hx]; constructor <;> omega
      have hq : -2147483648 ≤ (i.usecs.tmod 3600000000).tdiv 60000000 ∧
          (i.usecs.tmod 3600000000).tdiv 60000000 < 2147483648 := by
        rw [tdiv_eq_sign_ediv _ _ (by norm_num)]
        by_cases hx : 0 ≤ i.usecs.tmod 3600000000
        · rw [if_pos hx]; constructor <;> omega
        · rw [if_neg hx]; constructor <;> omega
      show some (as_i32 ((i.usecs.tmod USECONDS_PER_HOUR).tdiv USECONDS_PER_MINUTE)) = _
      unfold USECONDS_PER_HOUR USECONDS_PER_MINUTE
      rw [as_i32_eq hq.1 hq.2]
    · show some (((i.usecs.tmod USECONDS_PER_MINUTE : Int) : Rat)
        / ((USECONDS_PER_SECOND : Int) : Rat)) = _
      unfold USECONDS_PER_MINUTE USECONDS_PER_SECOND
      norm_num

/-- Witness for C9: the accessors at the repository's test value
`-93784000005` microseconds. -/
theorem c9_accessor_spec_witness :
    (⟨-93784000005⟩ : IntervalDT).day = some (-1) := by
  have h := (c9_accessor_spec.2 ⟨-93784000005⟩ (by decide)).1
  rw [h]
  decide

/-- C10: on every representable value the two sign decompositions agree:
each signed per-field accessor returns the magnitude produced by
`extract` with the extracted sign applied to it (for `second`, applied
to whole seconds plus fractional microseconds). -/
theorem c10_decomposition_agreement :
    (∀ i : IntervalYM, IntervalYM.is_valid_months i.months = true →
      i.year = some (i.extract.1.factor * (i.extract.2.1 : Int)) ∧
      i.month = some (i.extract.1.factor * (i.extract.2.2 : Int))) ∧
    (∀ i : IntervalDT, IntervalDT.is_valid_usecs i.usecs = true →
      i.day = some (i.extract.1.factor * (i.extract.2.1 : Int)) ∧
      i.hour = some (i.extract.1.factor * (i.extract.2.2.1 : Int)) ∧
      i.minute = some (i.extract.1.factor * (i.extract.2.2.2.1 : Int)) ∧
      i.second = some ((i.extract.1.factor : Rat) *
        ((i.extract.2.2.2.2.1 : Rat) + (i.extract.2.2.2.2.2 : Rat) / 1000000))) := by
  constructor
  · intro i hv
    obtain ⟨hlo, hhi⟩ := is_valid_months_iff.mp hv
    rw [extract_ym_eq i hv]
    by_cases hneg : i.months < 0
    · simp only [if_pos hneg, Sign.factor]
      constructor
      · show some (i.months.tdiv ((12 : Nat) : Int)) = _
        rw [tdiv_eq_sign_ediv _ _ (by norm_num), if_neg (by omega), Option.some.injEq]
        omega
      · show some (i.months.tmod ((12 : Nat) : Int)) = _
        rw [tmod_eq_sign_emod _ _ (by norm_num), if_neg (by omega), Option.some.injEq]
        omega
    · simp only [if_neg hneg, Sign.factor]
      constructor
      · show some (i.months.tdiv ((12 : Nat) : Int)) = _
        rw [tdiv_eq_sign_ediv _ _ (by norm_num), if_pos (by omega), Option.some.injEq]
        omega
      · show some (i.months.tmod ((12 : Nat) : Int)) = _
        rw [tmod_eq_sign_emod _ _ (by norm_num), if_pos (by omega), Option.some.injEq]
        omega
  · intro i hv
    obtain ⟨hlo, hhi⟩ := is_valid_usecs_iff.mp hv
    rw [extract_dt_eq i hv]
    have hmodD : i.usecs.tmod 86400000000 =
        (if i.usecs < 0 then -1 else 1) * ((i.usecs.natAbs % 86400000000 : Nat) : Int) := by
      rw [tmod_eq_sign_emod _ _ (by norm_num)]
      by_cases hx : i.usecs < 0
      · rw [if_neg (by omega), if_pos hx]; omega
      · rw [if_pos (by omega), if_neg hx]; omega
    have hmodH : i.usecs.tmod 3600000000 =
        (if i.usecs < 0 then -1 else 1) * ((i.usecs.natAbs % 3600000000 : Nat) : Int) := by
      rw [tmod_eq_sign_emod _ _ (by norm_num)]
      by_cases hx : i.usecs < 0
      · rw [if_neg (by omega), if_pos hx]; omega
      · rw [if_pos (by omega), if_neg hx]; omega
    have hmodM : i.usecs.tmod 60000000 =
        (if i.usecs < 0 then -1 else 1) * ((i.usecs.natAbs % 60000000 : Nat) : Int) := by
      rw [tmod_eq_sign_emod _ _ (by norm_num)]
      by_cases hx : i.usecs < 0
      · rw [if_neg (by omega), if_pos hx]; omega
      · rw [if_pos (by omega), if_neg hx]; omega
    by_cases hneg : i.usecs < 0
    · simp only [if_pos hneg, Sign.factor] at hmodD hmodH hmodM ⊢
      refine ⟨?_, ?_, ?_, ?_⟩
      · show some (as_i32 (i.usecs.tdiv USECONDS_PER_DAY)) = _
        unfold USECONDS_PER_DAY
        rw [tdiv_eq_sign_ediv _ _ (by norm_num), if_neg (by omega)]
        rw [as_i32_eq (by omega) (by omega), Option.some.injEq]
        omega
      · show some (as_i32 ((i.usecs.tmod USECONDS_PER_DAY).tdiv USECONDS_PER_HOUR)) = _
        unfold USECONDS_PER_DAY USECONDS_PER_HOUR
        rw [hmodD, neg_one_mul, Int.neg_tdiv,
          Int.tdiv_eq_ediv (by positivity) (by norm_num)]
        rw [as_i32_eq (by omega) (by omega), Option.some.injEq]
        omega
      · show some (as_i32 ((i.usecs.tmod USECONDS_PER_HOUR).tdiv USECONDS_PER_MINUTE)) = _
        unfold USECONDS_PER_HOUR USECONDS_PER_MINUTE
        rw [hmodH, neg_one_mul, Int.neg_tdiv,
          Int.tdiv_eq_ediv (by positivity) (by norm_num)]
        rw [as_i32_eq (by omega) (by omega), Option.some.injEq]
        omega
      · show some (((i.usecs.tmod USECONDS_PER_MINUTE : Int) : Rat)
          / ((USECONDS_PER_SECOND : Int) : Rat)) = _
        unfold USECONDS_PER_MINUTE USECONDS_PER_SECOND
        rw [Option.some.injEq]
        set a := i.usecs.natAbs % 60000000 / 1000000 with ha
        set b := i.usecs.natAbs % 1000000 with hb
        have hsec : i.usecs.tmod 60000000 = -1 * ((a * 1000000 + b : Nat) : Int) := by
          rw [tmod_eq_sign_emod _ _ (by norm_num), if_neg (by omega)]
          omega
        rw [hsec]
        push_cast
        field_simp
    · simp only [if_neg hneg, Sign.factor] at hmodD hmodH hmodM ⊢
      refine ⟨?_, ?_, ?_, ?_⟩
      · show some (as_i32 (i.usecs.tdiv USECONDS_PER_DAY)) = _
        unfold USECONDS_PER_DAY
        rw [tdiv_eq_sign_ediv _ _ (by norm_num), if_pos (by omega)]
        rw [as_i32_eq (by omega) (by omega), Option.some.injEq]
        omega
      · show some (as_i32 ((i.usecs.tmod USECONDS_PER_DAY).tdiv USECONDS_PER_HOUR)) = _
        unfold USECONDS_PER_DAY USECONDS_PER_HOUR
        rw [hmodD, one_mul, Int.tdiv_eq_ediv (by positivity) (by norm_num)]
        rw [as_i32_eq (by omega) (by omega), Option.some.injEq]
        omega
      · show some (as_i32 ((i.usecs.tmod USECONDS_PER_HOUR).tdiv USECONDS_PER_MINUTE)) = _
        unfold USECONDS_PER_HOUR USECONDS_PER_MINUTE
        rw [hmodH, one_mul, Int.tdiv_eq_ediv (by positivity) (by norm_num)]
        rw [as_i32_eq (by omega) (by omega), Option.some.injEq]
        omega
      · show some (((i.usecs.tmod USECONDS_PER_MINUTE : Int) : Rat)
          / ((USECONDS_PER_SECOND : Int) : Rat)) = _
        unfold USECONDS_PER_MINUTE USECONDS_PER_SECOND
        rw [Option.some.injEq]
        set a := i.usecs.natAbs % 60000000 / 1000000 with ha
        set b := i.usecs.natAbs % 1000000 with hb
        have hsec : i.usecs.tmod 60000000 = ((a * 1000000 + b : Nat) : Int) := by
          rw [tmod_eq_sign_emod _ _ (by norm_num), if_pos (by omega)]
          omega
        rw [hsec]
        push_cast
        field_simp

/-- Witness for C10: the agreement at the raw month count `-11`, the
spec's near-zero example (year 0, month -11). -/
theorem c10_decomposition_agreement_witness :
    (⟨-11⟩ : IntervalYM).year = some 0 ∧ (⟨-11⟩ : IntervalYM).month = some (-11) := by
  obtain ⟨h1, h2⟩ := c10_decomposition_agreement.1 ⟨-11⟩ (by decide)
  refine ⟨?_, ?_⟩
  · rw [h1]; decide
  · rw [h2]; decide

end SqlDT
